import Mathlib

/-!
# Verification of the HackHers26 video feature-extraction and scoring pipeline

Shallow embedding of the video analysis core:
`backend/app/video/decode.py`, `app/video/sampling.py`,
`backend/app/video/quality.py`, `app/video/liveness.py`,
`app/video/presage_features.py`, `backend/app/ml/model_loader.py`,
`backend/app/ml/preprocess.py`, `app/ml/infer.py` and the rPPG simulation in
`backend/app/services/presage_service.py`.

Numeric values are modelled as exact rationals (`ℚ`).  Opaque OpenCV / numpy
kernels (colour conversion, Haar cascade detection, Laplacian, Farneback
optical flow, resize, `np.sqrt`, `np.fft.rfft`) are modelled as explicit
capability functions bundled in an environment record; everything the Python
code computes itself (means, variances, diffs, correlations, slicing,
clamping, signal lists, branch structure) is translated directly.
-/

namespace HackHers

/-- A pixel in OpenCV BGR channel order: channel 0 = blue, 1 = green, 2 = red. -/
structure Pix where
  b : ℚ
  g : ℚ
  r : ℚ
deriving DecidableEq, Repr

/-- A decoded frame: a 2-D grid of BGR pixels (`np.ndarray` of shape (H, W, 3)). -/
abbrev Frame := List (List Pix)

/-- A grayscale image (`np.ndarray` of shape (H, W)). -/
abbrev GrayImg := List (List ℚ)

/-- A dense optical-flow field: per-pixel (dx, dy) vectors. -/
abbrev Flow := List (List (ℚ × ℚ))

/-- A face bounding box `(x, y, w, h)` in frame-pixel coordinates.  The Haar
cascade returns non-negative integer coordinates, so natural numbers. -/
abbrev BBox := ℕ × ℕ × ℕ × ℕ

/-- A normalized (C, H, W) tensor handed to the deepfake model. -/
abbrev Tensor := List (List (List ℚ))

/-! ## numpy primitives -/

/-- Number of (pixel) positions in a 2-D grid.  `arr.size` in numpy counts
scalar elements (3 per pixel for a colour frame); only zero-tests of `size`
occur in the sources and those agree with this count. -/
def matSize {α : Type} (m : List (List α)) : ℕ :=
  (m.map List.length).sum

/-- Flatten a 2-D grid row-major (numpy reductions over all elements). -/
def matFlatten {α : Type} (m : List (List α)) : List α :=
  m.flatten

/-- `np.mean` over a rational list (the sources only apply it to non-empty
lists; on `[]` we return 0 where numpy would produce NaN). -/
def npMean (l : List ℚ) : ℚ :=
  if l = [] then 0 else l.sum / l.length

/-- `np.var` (population variance): mean of squared deviations from the mean. -/
def npVar (l : List ℚ) : ℚ :=
  npMean (l.map (fun x => (x - npMean l) ^ 2))

/-- `np.diff`: successive differences. -/
def npDiff : List ℚ → List ℚ
  | [] => []
  | [_] => []
  | x :: y :: rest => (y - x) :: npDiff (y :: rest)

/-- `np.correlate(d, d, mode='full')`: full cross-correlation, entry `k`
(for `k = 0, …, 2m-2`) is `Σ_i d[i]·d[i+k-(m-1)]`. -/
def corrFull (d : List ℚ) : List ℚ :=
  let m := d.length
  (List.range (2 * m - 1)).map (fun (k : ℕ) =>
    ((List.range m).map (fun (i : ℕ) =>
      let j : ℤ := (i : ℤ) + (k : ℤ) - ((m : ℤ) - 1)
      if 0 ≤ j ∧ j.toNat < m then d.getD i 0 * d.getD j.toNat 0 else 0)).sum)

/-- Python `range(0, total, step)` for `step ≥ 1`. -/
def rangeStep (total step : ℕ) : List ℕ :=
  (List.range ((total + step - 1) / step)).map (· * step)

/-- Python list slice `l[a:b]` for non-negative bounds. -/
def pySlice {α : Type} (l : List α) (a b : ℕ) : List α :=
  (l.take b).drop a

/-- numpy 2-D slice `m[a:b, c:d]` for non-negative bounds. -/
def crop {α : Type} (m : List (List α)) (a b c d : ℕ) : List (List α) :=
  (pySlice m a b).map (fun row => pySlice row c d)

/-- Python `int(·)` on a non-negative float: truncation = floor. -/
def pyInt (q : ℚ) : ℕ := q.floor.toNat

/-! ## app/video/sampling.py -/

/-- `sample_frames(frames, sample_interval, max_frames)`:
indices `0, interval, 2·interval, …`, truncated to `max_frames`
(signal `max_frames_limited`), `no_frames_to_sample` on empty input,
`low_frame_count` when fewer than 3 frames remain. -/
def sample_frames (frames : List Frame) (sample_interval : ℕ := 15)
    (max_frames : ℕ := 12) : List Frame × List ℕ × List String :=
  let total_frames := frames.length
  if total_frames = 0 then
    ([], [], ["no_frames_to_sample"])
  else
    let indices0 := rangeStep total_frames sample_interval
    let indices := if max_frames < indices0.length then indices0.take max_frames else indices0
    let signals : List String :=
      if max_frames < indices0.length then ["max_frames_limited"] else []
    let sampled := indices.filterMap (fun i => frames.get? i)
    let signals := if sampled.length < 3 then signals ++ ["low_frame_count"] else signals
    (sampled, indices, signals)

/-! ## backend/app/video/decode.py

`cv2.VideoCapture` is opaque: its behaviour on a given byte buffer is a
capability.  `tempfile.NamedTemporaryFile(delete=False)` / `os.unlink` are
modelled by explicit threading of the set (list) of existing scratch files. -/

/-- Outcome of `cv2.VideoCapture(tmp_path)` followed by the read loop:
the container cannot be opened, the frames read successfully (possibly zero
frames), or an exception is raised during decoding. -/
inductive CvBehavior where
  | notOpened
  | readOk (frames : List Frame)
  | raisesDuring (msg : String)
deriving DecidableEq

/-- `_get_suffix`: sniff the 4-byte EBML/WebM magic number, else `.mp4`. -/
def getSuffix (video_bytes : List ℕ) : String :=
  if video_bytes.take 4 = [0x1a, 0x45, 0xdf, 0xa3] then ".webm" else ".mp4"

/-- The `(success, frames, signals)` triple returned by `decode_video_bytes`,
as a function of the capture behaviour. -/
def decodeResult (beh : CvBehavior) : Bool × Option (List Frame) × List String :=
  match beh with
  | .notOpened => (false, none, ["decode_failed"])
  | .raisesDuring msg => (false, none, ["decode_error: " ++ msg])
  | .readOk frames =>
      if frames.length = 0 then (false, none, ["no_frames"])
      else (true, some frames, [])

/-- File-system effect of `decode_video_bytes`: the scratch file `tmp` is
created (`NamedTemporaryFile(delete=False)`) and then unlinked on the branch
taken (`os.unlink` on the not-opened path, after the read loop, and in the
`except` handler guarded by `os.path.exists`). -/
def decodeFS (fs : List String) (tmp : String) (beh : CvBehavior) : List String :=
  let fs1 := fs ++ [tmp]
  match beh with
  | .notOpened => fs1.erase tmp
  | .raisesDuring _ => if tmp ∈ fs1 then fs1.erase tmp else fs1
  | .readOk _ => fs1.erase tmp

/-- `decode_video_bytes(video_bytes)` with the file-system state threaded
explicitly: returns the result triple and the new set of on-disk files. -/
def decode_video_bytes (beh : CvBehavior) (tmp : String)
    (video_bytes : List ℕ) (fs : List String) :
    (Bool × Option (List Frame) × List String) × List String :=
  let _suffix := getSuffix video_bytes
  (decodeResult beh, decodeFS fs tmp beh)

/-! ## backend/app/video/quality.py -/

/-- OpenCV / numpy capabilities used by the pipeline, plus the process
environment (capture behaviour per byte buffer, scratch-file name, loaded
deepfake model). -/
structure CvEnv where
  /-- `cv2.VideoCapture` behaviour on the scratch file written from the bytes. -/
  capture : List ℕ → CvBehavior
  /-- the fresh name chosen by `tempfile.NamedTemporaryFile`. -/
  tmpName : String
  /-- `detect_face_haar`: grayscale + `equalizeHist` + cascade, first box or none. -/
  detect : Frame → Option BBox
  /-- `cv2.cvtColor(·, cv2.COLOR_BGR2GRAY)`. -/
  cvtGray : Frame → GrayImg
  /-- `cv2.Laplacian(·, cv2.CV_64F)`. -/
  laplacian : GrayImg → GrayImg
  /-- `cv2.calcOpticalFlowFarneback` with the pipeline's fixed parameters. -/
  farneback : GrayImg → GrayImg → Flow
  /-- `cv2.resize(·, (224, 224), INTER_LINEAR)`. -/
  resize : Frame → Frame
  /-- `np.sqrt`. -/
  sqrtQ : ℚ → ℚ
  /-- `predict_batch` of the model returned by `load_deepfake_model()`. -/
  model : List Tensor → List ℚ
  /-- second component of `load_deepfake_model()`. -/
  modelIsFake : Bool

/-- `compute_blur_score`: variance of the Laplacian of the grayscale ROI,
normalized by 150 and capped at 1. -/
def compute_blur_score (env : CvEnv) (roi : Frame) : ℚ :=
  if matSize roi = 0 then 0
  else
    let gray := env.cvtGray roi
    let laplacian := env.laplacian gray
    let variance := npVar (matFlatten laplacian)
    min (variance / 150) 1

/-- `compute_brightness_score`: 1 inside the mean-intensity band [50, 200],
linearly decaying outside. -/
def compute_brightness_score (env : CvEnv) (roi : Frame) : ℚ :=
  if matSize roi = 0 then 0
  else
    let mean_intensity := npMean (matFlatten (env.cvtGray roi))
    if 50 ≤ mean_intensity ∧ mean_intensity ≤ 200 then 1
    else if mean_intensity < 50 then mean_intensity / 50
    else max 0 (1 - (mean_intensity - 200) / 100)

/-- `compute_face_presence_ratio`. -/
def compute_face_presence_ratio {α : Type} (faces_detected : List (Option α))
    (total_frames : ℕ) : ℚ :=
  if total_frames = 0 then 0
  else (faces_detected.countP Option.isSome : ℚ) / total_frames

/-- `compute_quality_score(rois)`: weighted blur / brightness / face-presence
composite, clamped to [0, 1], with the quality signal tags. -/
def compute_quality_score (env : CvEnv) (rois : List (Option Frame))
    (blur_weight : ℚ := 2/5) (brightness_weight : ℚ := 3/10)
    (face_presence_weight : ℚ := 3/10) : ℚ × List String :=
  let total_frames := rois.length
  if total_frames = 0 then (0, ["no_rois"])
  else
    let per_roi : List (ℚ × ℚ × Option Frame) := rois.map (fun roi =>
      match roi with
      | none => (0, 0, none)
      | some r =>
          if matSize r = 0 then (0, 0, none)
          else (compute_blur_score env r, compute_brightness_score env r, some r))
    let blur_scores := per_roi.map (·.1)
    let brightness_scores := per_roi.map (·.2.1)
    let faces_detected := per_roi.map (·.2.2)
    let face_presence_ratio := compute_face_presence_ratio faces_detected total_frames
    let avg_blur := if blur_scores = [] then 0 else npMean blur_scores
    let avg_brightness := if brightness_scores = [] then 0 else npMean brightness_scores
    let quality := blur_weight * avg_blur + brightness_weight * avg_brightness +
      face_presence_weight * face_presence_ratio
    let quality := max 0 (min 1 quality)
    let signals : List String :=
      (if face_presence_ratio < 1/2 then ["low_face_presence"] else []) ++
      (if avg_blur < 3/10 then ["blurry_video"] else []) ++
      (if avg_brightness < 3/10 then ["poor_lighting"] else [])
    (quality, signals)

/-! ## app/video/liveness.py -/

/-- `compute_optical_flow(prev, curr)`: Farneback dense flow on the grayscale
conversions (the `None`-frame guard cannot fire on elements of a frame list). -/
def compute_optical_flow (env : CvEnv) (prev_frame curr_frame : Frame) : Flow :=
  env.farneback (env.cvtGray prev_frame) (env.cvtGray curr_frame)

/-- `np.gradient` of a 1-D sequence: one-sided differences at the edges,
central differences inside (numpy rejects axes shorter than 2; the sources
only reach this on real flow fields, we return zeros there). -/
def grad1 (v : List ℚ) : List ℚ :=
  match v with
  | [] => []
  | [_] => [0]
  | _ =>
    (List.range v.length).map (fun i =>
      if i = 0 then v.getD 1 0 - v.getD 0 0
      else if i = v.length - 1 then v.getD i 0 - v.getD (i - 1) 0
      else (v.getD (i + 1) 0 - v.getD (i - 1) 0) / 2)

/-- Transpose of a rectangular 2-D grid. -/
def matTranspose (m : List (List ℚ)) : List (List ℚ) :=
  match m with
  | [] => []
  | r0 :: _ => (List.range r0.length).map (fun j => m.map (fun row => row.getD j 0))

/-- `np.gradient(m, axis=0)`: gradient down each column. -/
def gradAxis0 (m : List (List ℚ)) : List (List ℚ) :=
  matTranspose ((matTranspose m).map grad1)

/-- `np.gradient(m, axis=1)`: gradient along each row. -/
def gradAxis1 (m : List (List ℚ)) : List (List ℚ) :=
  m.map grad1

/-- Elementwise binary operation on two same-shape grids. -/
def matZipWith (f : ℚ → ℚ → ℚ) (a b : List (List ℚ)) : List (List ℚ) :=
  List.zipWith (List.zipWith f) a b

/-- `compute_non_rigid_ratio(flow)`: divergence/curl energy over total flow
magnitude, halved and capped at 1; 0.5 when the flow is exactly zero. -/
def compute_non_rigid_ratio (flow : Flow) : ℚ :=
  if matSize flow = 0 then 0
  else
    let flow_x := flow.map (fun row => row.map (·.1))
    let flow_y := flow.map (fun row => row.map (·.2))
    let grad_x := gradAxis0 flow_x
    let grad_y := gradAxis1 flow_y
    let divergence := matZipWith (· + ·) grad_x grad_y
    let curl := matZipWith (· - ·) (gradAxis0 flow_y) (gradAxis1 flow_x)
    let non_rigid_energy :=
      npMean ((matFlatten divergence).map abs) + npMean ((matFlatten curl).map abs)
    let global_flow :=
      npMean ((matFlatten flow_x).map abs) + npMean ((matFlatten flow_y).map abs)
    if global_flow = 0 then 1/2
    else
      let non_rigid_ratio := non_rigid_energy / (global_flow + 1/1000000)
      min (non_rigid_ratio / 2) 1

/-- The body of the flow-pair loop in `compute_liveness_score` for the
consecutive pair `(i, i+1)`: the inner `for j, bbox in
enumerate(face_bboxes[i+1:])` takes the FIRST non-`None` box at any index
`≥ i+1`, slices frame `i+1` with it, and only when that slice is non-empty
computes dense optical flow and (when the field is non-empty) appends the
non-rigid ratio. -/
def nonRigidEntry (env : CvEnv) (frames : List Frame)
    (face_bboxes : List (Option BBox)) (i : ℕ) : Option ℚ :=
  match (face_bboxes.drop (i + 1)).findSome? id with
  | none => none
  | some (x, y, w, h) =>
      let roi_current := crop (frames.getD (i + 1) []) y (y + h) x (x + w)
      if 0 < matSize roi_current then
        let flow := compute_optical_flow env (frames.getD i []) (frames.getD (i + 1) [])
        if 0 < matSize flow then some (compute_non_rigid_ratio flow) else none
      else none

/-- Whether the loop invokes `compute_optical_flow` for the pair `(i, i+1)`. -/
def flowPairComputed (frames : List Frame)
    (face_bboxes : List (Option BBox)) (i : ℕ) : Bool :=
  decide (i + 1 < frames.length) &&
    match (face_bboxes.drop (i + 1)).findSome? id with
    | none => false
    | some (x, y, w, h) =>
        decide (0 < matSize (crop (frames.getD (i + 1) []) y (y + h) x (x + w)))

/-- The `non_rigid_ratios` list accumulated by `compute_liveness_score`. -/
def nonRigidRatios (env : CvEnv) (frames : List Frame)
    (face_bboxes : List (Option BBox)) : List ℚ :=
  (List.range (frames.length - 1)).filterMap (nonRigidEntry env frames face_bboxes)

/-- The average non-rigid ratio used by `compute_liveness_score`:
`[0.5]` is substituted when no flow pair qualifies. -/
def liveness_avg_non_rigid (env : CvEnv) (frames : List Frame)
    (face_bboxes : List (Option BBox)) : ℚ :=
  npMean (if nonRigidRatios env frames face_bboxes = [] then [1/2]
          else nonRigidRatios env frames face_bboxes)

/-- `compute_liveness_score(frames, face_bboxes, motion_threshold=2.0)`. -/
def compute_liveness_score (env : CvEnv) (frames : List Frame)
    (face_bboxes : List (Option BBox)) (motion_threshold : ℚ := 2) :
    ℚ × List String :=
  if frames.length < 2 then (1/2, ["insufficient_frames_for_liveness"])
  else
    let bbox_centers : List (Option (ℕ × ℕ)) := face_bboxes.map (fun bbox =>
      bbox.map (fun (x, y, w, h) => (x + w / 2, y + h / 2)))
    let valid_centers := bbox_centers.filterMap id
    let (avg_displacement, motion_signals) :=
      if 2 ≤ valid_centers.length then
        let displacements := (valid_centers.zip valid_centers.tail).map (fun (c1, c2) =>
          let dx : ℤ := (c2.1 : ℤ) - (c1.1 : ℤ)
          let dy : ℤ := (c2.2 : ℤ) - (c1.2 : ℤ)
          env.sqrtQ ((dx ^ 2 + dy ^ 2 : ℤ) : ℚ))
        let avg := if displacements = [] then 0 else npMean displacements
        (avg, if avg < motion_threshold then ["low_motion"] else [])
      else ((0 : ℚ), [])
    let avg_non_rigid := liveness_avg_non_rigid env frames face_bboxes
    let signals := motion_signals ++
      (if avg_non_rigid < 3/10 then ["rigid_motion_suspected"] else [])
    let motion_compliance := min (avg_displacement / 20) 1
    let liveness := 2/5 * motion_compliance + 3/5 * avg_non_rigid
    (max 0 (min 1 liveness), signals)

/-! ## app/video/presage_features.py -/

/-- `compute_micro_motion_energy(roi)`: grayscale pixel variance of the
forehead and cheek sub-regions, normalized by 1000 and capped at 1, averaged
over the non-empty regions. -/
def compute_micro_motion_energy (env : CvEnv) (roi : Frame) : ℚ :=
  if matSize roi = 0 then 0
  else
    let h := roi.length
    let w := (roi.headD []).length
    let forehead_roi := crop roi (pyInt (h * (1/10))) (pyInt (h * (35/100)))
      (pyInt (w * (25/100))) (pyInt (w * (75/100)))
    let left_cheek_roi := crop roi (pyInt (h * (5/10))) (pyInt (h * (75/100)))
      (pyInt (w * (1/10))) (pyInt (w * (35/100)))
    let right_cheek_roi := crop roi (pyInt (h * (5/10))) (pyInt (h * (75/100)))
      (pyInt (w * (65/100))) (pyInt (w * (9/10)))
    let regions := [forehead_roi, left_cheek_roi, right_cheek_roi]
    let energies := regions.filterMap (fun region =>
      if 0 < matSize region then
        let gray := env.cvtGray region
        let variance := npVar (matFlatten gray)
        some (min (variance / 1000) 1)
      else none)
    if energies = [] then 0 else npMean energies

/-- `compute_motion_smoothness(flows)`: `max(0, 1 - jitter/5)` per consecutive
pair of flow fields, averaged; 0.5 for fewer than 2 fields. -/
def compute_motion_smoothness (flows : List Flow) : ℚ :=
  if flows.length < 2 then 1/2
  else
    let smoothness_scores := (flows.zip flows.tail).filterMap (fun (flow_curr, flow_next) =>
      if matSize flow_curr = 0 ∨ matSize flow_next = 0 then none
      else
        let comps := fun (f : Flow) => (matFlatten f).flatMap (fun (p : ℚ × ℚ) => [p.1, p.2])
        let diff := List.zipWith (fun a b => |a - b|) (comps flow_curr) (comps flow_next)
        let jitter := npMean diff
        some (max 0 (1 - jitter / 5)))
    if smoothness_scores = [] then 1/2 else npMean smoothness_scores

/-- Mean green-channel value of a frame (`np.mean(frame[:, :, 1])`). -/
def greenMean (frame : Frame) : ℚ :=
  npMean ((matFlatten frame).map Pix.g)

/-- `compute_periodicity_proxy(frames)`: autocorrelate the first-differenced
mean-green series, find local peaks on the non-negative-lag half, and return
`mean(peak values) / (var(diffs) + 1e-6) / 10` capped at 1 (note: only capped
above, never clamped below 0); 0 with fewer than 3 frames or no peaks. -/
def compute_periodicity_proxy (frames : List Frame) : ℚ :=
  if frames.length < 3 then 0
  else
    let green_means := frames.filterMap (fun frame =>
      if 0 < matSize frame then some (greenMean frame) else none)
    if green_means.length < 3 then 0
    else
      let differences := npDiff green_means
      let autocorrFull := corrFull differences
      let autocorr := autocorrFull.drop (autocorrFull.length / 2)
      if 2 < autocorr.length then
        let peaks := (List.range (autocorr.length - 2)).filter (fun i =>
          autocorr.getD i 0 < autocorr.getD (i + 1) 0 ∧
          autocorr.getD (i + 2) 0 < autocorr.getD (i + 1) 0)
        if peaks ≠ [] then
          let periodicity :=
            npMean (peaks.map (fun p => autocorr.getD (p + 1) 0)) /
              (npVar differences + 1/1000000)
          min (periodicity / 10) 1
        else 0
      else 0

/-- The four presage sub-scores. -/
structure PresageRaw where
  micro_motion : ℚ
  smoothness : ℚ
  periodicity_proxy : ℚ
  face_presence_ratio : ℚ
deriving DecidableEq, Repr

/-- The `micro_motions` list built by `compute_presage_features` (ROIs that
are present and non-empty). -/
def presageMicroMotions (env : CvEnv) (rois : List (Option Frame)) : List ℚ :=
  rois.filterMap (fun roi =>
    match roi with
    | some r => if 0 < matSize r then some (compute_micro_motion_energy env r) else none
    | none => none)

/-- The Farneback flow fields over consecutive sampled frames, as built by
`compute_presage_features`. -/
def presageFlows (env : CvEnv) (frames : List Frame) : List Flow :=
  (List.range (frames.length - 1)).map (fun i =>
    env.farneback (env.cvtGray (frames.getD i [])) (env.cvtGray (frames.getD (i + 1) [])))

/-- `compute_presage_features(frames, rois, face_bboxes)`. -/
def compute_presage_features (env : CvEnv) (frames : List Frame)
    (rois : List (Option Frame)) (face_bboxes : List (Option BBox)) :
    ℚ × PresageRaw × List String :=
  let total_frames := frames.length
  if total_frames = 0 then
    (0, ⟨0, 0, 0, 0⟩, [])
  else
    let frames_with_face := face_bboxes.countP Option.isSome
    let face_presence_ratio : ℚ := (frames_with_face : ℚ) / total_frames
    let micro_motions := presageMicroMotions env rois
    let micro_motion := if micro_motions = [] then 0 else npMean micro_motions
    let flows := presageFlows env frames
    let smoothness := compute_motion_smoothness flows
    let periodicity_proxy := compute_periodicity_proxy frames
    let presage_raw : PresageRaw :=
      ⟨micro_motion, smoothness, periodicity_proxy, face_presence_ratio⟩
    let presage := 35/100 * micro_motion + 35/100 * smoothness +
      15/100 * (1 - periodicity_proxy) + 15/100 * face_presence_ratio
    let presage := max 0 (min 1 presage)
    let signals : List String :=
      (if micro_motion < 1/5 then ["low_micro_motion"] else []) ++
      (if smoothness < 2/5 then ["unnatural_motion"] else []) ++
      (if 7/10 < periodicity_proxy then ["periodic_pattern_detected"] else [])
    (presage, presage_raw, signals)

/-! ## backend/app/ml/preprocess.py -/

/-- `np.zeros((3, 224, 224), dtype=np.float32)`. -/
def zerosTensor : Tensor :=
  List.replicate 3 (List.replicate 224 (List.replicate 224 (0 : ℚ)))

/-- `resize_roi(roi, (224, 224))`: zeros for missing/empty ROI, else
`cv2.resize` (a capability). -/
def resize_roi (env : CvEnv) (roi : Option Frame) : Frame :=
  match roi with
  | none => List.replicate 224 (List.replicate 224 (⟨0, 0, 0⟩ : Pix))
  | some r =>
      if matSize r = 0 then List.replicate 224 (List.replicate 224 (⟨0, 0, 0⟩ : Pix))
      else env.resize r

/-- `normalize_to_tensor(frame)`: scale to [0,1], reverse the channel order
(BGR → RGB), subtract the ImageNet per-channel mean, divide by the std, and
transpose to (C, H, W). -/
def normalize_to_tensor (frame : Frame) : Tensor :=
  let chan := fun (sel : Pix → ℚ) (mean std : ℚ) =>
    frame.map (fun row => row.map (fun p => (sel p / 255 - mean) / std))
  [chan Pix.r (485/1000) (229/1000),
   chan Pix.g (456/1000) (224/1000),
   chan Pix.b (406/1000) (225/1000)]

/-! ## backend/app/ml/model_loader.py -/

/-- `FakeModel.predict_batch(frame_tensors)`: element-wise `predict`, plus a
batch-level +0.1 inter-frame-consistency penalty (each result capped at 1)
when the batch has at least 3 probabilities and their variance exceeds 0.05.
The per-frame `predict` heuristic is passed as a function, exactly as the
method body uses `self.predict`. -/
def FakeModel.predict_batch {α : Type} (predict : α → ℚ)
    (frame_tensors : List α) : List ℚ :=
  let probs := frame_tensors.map predict
  if 3 ≤ probs.length then
    let frame_var := npVar probs
    if 1/20 < frame_var then probs.map (fun p => min (p + 1/10) 1) else probs
  else probs

/-! ## app/ml/infer.py -/

/-- `extract_face_roi(frame, bbox)`: clamp the box to the frame bounds and
slice; `None` when the clamp yields a zero-area region. -/
def extract_face_roi (frame : Frame) (bbox : BBox) : Option Frame :=
  let (x, y, w, h) := bbox
  let h_frame := frame.length
  let w_frame := (frame.headD []).length
  let w := min w (w_frame - x)
  let h := min h (h_frame - y)
  if w = 0 ∨ h = 0 then none
  else some (crop frame y (y + h) x (x + w))

/-- `compute_temporal_inconsistency(rois, fake_probs)`: 0 for fewer than 2
probabilities, else `min((var + mean |successive differences|) * 2, 1)`.
The `rois` argument is accepted but unused, as in the source. -/
def compute_temporal_inconsistency (rois : List (Option Frame))
    (fake_probs : List ℚ) : ℚ :=
  if fake_probs.length < 2 then 0
  else
    let variance := npVar fake_probs
    let mean_diff := npMean ((npDiff fake_probs).map abs)
    let inconsistency := variance + mean_diff
    min (inconsistency * 2) 1

/-- The analysis configuration (`config.get("sample_interval", 15)`,
`config.get("max_frames", 12)`). -/
structure Config where
  sample_interval : ℕ := 15
  max_frames : ℕ := 12
deriving DecidableEq, Repr

/-- The result record of `analyze_video_bytes`. -/
structure ScoreSet where
  deepfake_mean : ℚ
  deepfake_var : ℚ
  liveness : ℚ
  quality : ℚ
  presage : ℚ
  signals : List String
  presage_raw : PresageRaw
deriving DecidableEq, Repr

/-- The fully-zeroed ScoreSet returned on the short-circuit paths. -/
def zeroScoreSet (signals : List String) : ScoreSet :=
  ⟨0, 0, 0, 0, 0, signals, ⟨0, 0, 0, 0⟩⟩

/-- The body of `analyze_video_bytes` downstream of `decode_video_bytes`,
as a function of the decode result triple. -/
def analyzeFromDecode (env : CvEnv) (cfg : Config)
    (decoded : Bool × Option (List Frame) × List String) : ScoreSet :=
  let success := decoded.1
  let framesOpt := decoded.2.1
  let decode_signals := decoded.2.2
  if success = false then zeroScoreSet decode_signals
  else
    let frames := framesOpt.getD []
    let all_signals := decode_signals
    let sampleOut := sample_frames frames cfg.sample_interval cfg.max_frames
    let sampled_frames := sampleOut.1
    let sample_signals := sampleOut.2.2
    let all_signals := all_signals ++ sample_signals
    if sampled_frames.length = 0 then
      zeroScoreSet (all_signals ++ ["no_sampled_frames"])
    else
      let face_bboxes := sampled_frames.map env.detect
      let rois : List (Option Frame) := sampled_frames.map (fun frame =>
        match env.detect frame with
        | some bbox => extract_face_roi frame bbox
        | none => none)
      let qualityOut := compute_quality_score env rois
      let quality := qualityOut.1
      let all_signals := all_signals ++ qualityOut.2
      if "decode_failed" ∈ all_signals then zeroScoreSet all_signals
      else
        let livenessOut := compute_liveness_score env sampled_frames face_bboxes
        let liveness := livenessOut.1
        let all_signals := all_signals ++ livenessOut.2
        let presageOut := compute_presage_features env sampled_frames rois face_bboxes
        let presage := presageOut.1
        let presage_raw := presageOut.2.1
        let all_signals := all_signals ++ presageOut.2.2
        let preprocessed : List Tensor := rois.map (fun roi =>
          match roi with
          | some r =>
              if 0 < matSize r then normalize_to_tensor (resize_roi env (some r))
              else zerosTensor
          | none => zerosTensor)
        let fake_probs := env.model preprocessed
        let temporal_inconsistency := compute_temporal_inconsistency rois fake_probs
        let all_signals :=
          if 1/2 < temporal_inconsistency then
            all_signals ++ ["temporal_inconsistency_detected"]
          else all_signals
        let adjusted_probs := fake_probs.map (fun p => p + 1/10 * temporal_inconsistency)
        let deepfake_mean := if adjusted_probs ≠ [] then npMean adjusted_probs else 1/2
        let deepfake_var := if 1 < adjusted_probs.length then npVar adjusted_probs else 0
        let deepfake_mean := max 0 (min 1 deepfake_mean)
        let deepfake_var := max 0 (min 1 deepfake_var)
        -- `unique_signals = list(set(all_signals))`: duplicate removal (the
        -- source leaves the resulting order to the hash set; `using_fake_model`
        -- is appended to a separate `signals` variable that is never merged
        -- into `all_signals`, so it is dead and does not reach the output)
        let unique_signals := all_signals.dedup
        { deepfake_mean := deepfake_mean
          deepfake_var := deepfake_var
          liveness := liveness
          quality := quality
          presage := presage
          signals := unique_signals
          presage_raw := presage_raw }

/-- The ScoreSet produced for a byte buffer (pure value: the pipeline keeps
no state besides the scratch file, whose lifecycle is threaded separately). -/
def analyzeScore (env : CvEnv) (video_bytes : List ℕ) (cfg : Config) : ScoreSet :=
  analyzeFromDecode env cfg (decodeResult (env.capture video_bytes))

/-- `analyze_video_bytes(video_bytes, config)` with the scratch-file state
threaded: the ScoreSet together with the file-system state after the call. -/
def analyze_video_bytes (env : CvEnv) (video_bytes : List ℕ) (cfg : Config)
    (fs : List String) : ScoreSet × List String :=
  (analyzeScore env video_bytes cfg,
   decodeFS fs env.tmpName (env.capture video_bytes))

/-! ## backend/app/services/presage_service.py — `_rppg_sync`

The rPPG simulation path.  Decoding is as in `decode.py`; the analysis below
embeds everything from the `len(frames) < 10` check onward.  `np.fft.rfft`
is an opaque numeric kernel and is a capability; the frequency grid
`np.fft.rfftfreq(N, d=1/fps)` (`freqs[i] = i · fps / N`, `N/2 + 1` entries)
and all the band-power arithmetic are exact. -/

/-- Capabilities used by `_rppg_sync`. -/
structure RppgEnv where
  /-- `cv2.cvtColor(·, cv2.COLOR_BGR2GRAY)`. -/
  cvtGray : Frame → GrayImg
  /-- `cascade.detectMultiScale(gray, 1.1, 5, minSize=(60, 60))`. -/
  detect : GrayImg → List BBox
  /-- `cv2.calcOpticalFlowFarneback` on the face ROI pair. -/
  farneback : GrayImg → GrayImg → Flow
  /-- `np.fft.rfft` as (re, im) pairs. -/
  rfft : List ℚ → List (ℚ × ℚ)
  /-- `cap.get(cv2.CAP_PROP_FPS) or 30.0`. -/
  fps : ℚ

/-- Python `round(q, ndigits)`: round half to even at `ndigits` decimals. -/
def pyRound (q : ℚ) (ndigits : ℕ) : ℚ :=
  let scaled := q * 10 ^ ndigits
  let f := scaled.floor
  let r := scaled - f
  let n : ℤ :=
    if r < 1/2 then f
    else if 1/2 < r then f + 1
    else if f % 2 = 0 then f else f + 1
  (n : ℚ) / 10 ^ ndigits

/-- The result record built by `_build_rppg_result`. -/
structure RppgResult where
  presage_score : ℚ
  pulse_detected : Bool
  heart_rate_bpm : Option ℚ
  breathing_rate : Option ℚ
  spoofing_flags : List String
  confidence : ℚ
  mode : String
deriving DecidableEq, Repr

/-- `_build_rppg_result`: note `round(x, 1) if x else None` — Python
truthiness maps both `None` and `0.0` to `None`. -/
def buildRppgResult (presage_score : ℚ) (pulse_detected : Bool)
    (heart_rate_bpm breathing_rate : Option ℚ) (spoofing_flags : List String)
    (confidence : ℚ) : RppgResult :=
  { presage_score := presage_score
    pulse_detected := pulse_detected
    heart_rate_bpm := match heart_rate_bpm with
      | some v => if v = 0 then none else some (pyRound v 1)
      | none => none
    breathing_rate := match breathing_rate with
      | some v => if v = 0 then none else some (pyRound v 1)
      | none => none
    spoofing_flags := spoofing_flags
    confidence := pyRound confidence 4
    mode := "RPPG_SIMULATION" }

/-- `_compute_live_score(pulse_detected, hr_confidence, motion_present)`. -/
def compute_live_score (pulse_detected : Bool) (hr_confidence : ℚ)
    (motion_present : Bool) : ℚ :=
  let score := 60/100 * (if pulse_detected then 1 else 0) +
    25/100 * hr_confidence + 15/100 * (if motion_present then (1:ℚ) else 0)
  pyRound (max 0 (min 1 score)) 4

/-- Accumulator of the per-frame loop in `_rppg_sync`. -/
structure RppgState where
  green_signal : List ℚ
  motion_energy : List ℚ
  prev_gray : Option GrayImg
  faces_found : ℕ
deriving Repr

/-- One iteration of the per-frame loop of `_rppg_sync`. -/
def rppgFrameStep (env : RppgEnv) (st : RppgState) (frame : Frame) : RppgState :=
  let gray := env.cvtGray frame
  match env.detect gray with
  | [] =>
      -- no face: carry the last green value (or 0.0), zero motion,
      -- and update prev_gray only if it was already set
      { green_signal := st.green_signal ++ [(st.green_signal.getLast?).getD 0]
        motion_energy := st.motion_energy ++ [0]
        prev_gray := match st.prev_gray with
          | some _ => some gray
          | none => none
        faces_found := st.faces_found }
  | (x, y, w, h) :: _ =>
      -- forehead region: frame[y : y + int(h*0.3), x : x + w]
      let fh := crop frame y (y + pyInt (h * (3/10))) x (x + w)
      let green_signal :=
        if 0 < matSize fh then
          st.green_signal ++ [npMean ((matFlatten fh).map Pix.g)]
        else st.green_signal
      let roi_gray := crop gray y (y + h) x (x + w)
      let motion_energy :=
        match st.prev_gray with
        | some pg =>
            let prev_roi := crop pg y (y + h) x (x + w)
            if roi_gray.map List.length = prev_roi.map List.length ∧ 0 < matSize roi_gray then
              let flow := env.farneback prev_roi roi_gray
              st.motion_energy ++
                [npMean (((matFlatten flow).flatMap (fun p => [p.1, p.2])).map abs)]
            else st.motion_energy
        | none => st.motion_energy
      { green_signal := green_signal
        motion_energy := motion_energy
        prev_gray := some gray
        faces_found := st.faces_found + 1 }

/-- The loop state after processing all frames. -/
def rppgLoop (env : RppgEnv) (frames : List Frame) : RppgState :=
  frames.foldl (rppgFrameStep env) ⟨[], [], none, 0⟩

/-- `np.fft.rfftfreq(N, d=1.0/fps)`. -/
def rfftfreqs (N : ℕ) (fps : ℚ) : List ℚ :=
  (List.range (N / 2 + 1)).map (fun i => i * fps / N)

/-- `np.argmax` over squared complex magnitudes (first index of the maximum,
which coincides with `np.argmax(np.abs(fft))` since `|·|` is monotone in
`re² + im²`). -/
def npArgmax (l : List ℚ) : ℕ :=
  (l.foldl (fun (acc : ℕ × ℕ × ℚ) x =>
    let (best, idx, bestVal) := acc
    if bestVal < x then (idx, idx + 1, x) else (best, idx + 1, bestVal)) (0, 0, 0) |>.1)

/-- The heart-rate FFT pass of `_rppg_sync` on the (already extracted) green
series: detrend, mask to the cardiac band `[0.75, 4.0]` Hz, and derive
`(hr_confidence, pulse_detected, heart_rate_bpm)`. -/
def rppgHeartRatePass (env : RppgEnv) (green_signal : List ℚ) :
    ℚ × Bool × Option ℚ :=
  if 15 ≤ green_signal.length then
    let m := npMean green_signal
    let sig := green_signal.map (fun x => x - m)
    let N := sig.length
    let fft := env.rfft sig
    let freqs := rfftfreqs N env.fps
    let mask := freqs.map (fun f => decide (3/4 ≤ f ∧ f ≤ 4))
    let fft_filtered := List.zipWith (fun (c : ℚ × ℚ) (b : Bool) =>
      if b then c else ((0 : ℚ), (0 : ℚ))) fft mask
    let band_power := (fft_filtered.map (fun c => c.1 ^ 2 + c.2 ^ 2)).sum
    let total_power := (fft.map (fun c => c.1 ^ 2 + c.2 ^ 2)).sum + 1/1000000000
    let hr_confidence := min (band_power / total_power * 5) 1
    if 1/20 < hr_confidence then
      let dominant_idx := npArgmax (fft_filtered.map (fun c => c.1 ^ 2 + c.2 ^ 2))
      let dominant_freq := freqs.getD dominant_idx 0
      if 0 < dominant_freq then (hr_confidence, true, some (dominant_freq * 60))
      else (hr_confidence, false, none)
    else (hr_confidence, false, none)
  else (0, false, none)

/-- The breathing-rate FFT pass (band `[0.1, 0.5]` Hz, ≥ 30 samples). -/
def rppgBreathingPass (env : RppgEnv) (green_signal : List ℚ) : Option ℚ :=
  if 30 ≤ green_signal.length then
    let m := npMean green_signal
    let sig := green_signal.map (fun x => x - m)
    let N := sig.length
    let fft := env.rfft sig
    let freqs := rfftfreqs N env.fps
    let mask := freqs.map (fun f => decide (1/10 ≤ f ∧ f ≤ 1/2))
    let fft_b := List.zipWith (fun (c : ℚ × ℚ) (b : Bool) =>
      if b then c else ((0 : ℚ), (0 : ℚ))) fft mask
    if mask.any id then
      let dominant_idx := npArgmax (fft_b.map (fun c => c.1 ^ 2 + c.2 ^ 2))
      let dominant_freq := freqs.getD dominant_idx 0
      if 0 < dominant_freq then some (dominant_freq * 60) else none
    else none
  else none

/-- The mean micro-motion energy of `_rppg_sync`
(`np.mean(motion_energy) if motion_energy else 0.0`). -/
def rppgMeanMotion (env : RppgEnv) (frames : List Frame) : ℚ :=
  if (rppgLoop env frames).motion_energy ≠ []
  then npMean (rppgLoop env frames).motion_energy else 0

/-- `_rppg_sync` from the `len(frames) < 10` check onward (the decode stage
is the same scratch-file pattern as `decode.py`). -/
def rppgSync (env : RppgEnv) (frames : List Frame) : RppgResult :=
  if frames.length < 10 then
    buildRppgResult (1/10) false none none ["insufficient_frames"] (1/10)
  else
    let st := rppgLoop env frames
    let face_ratio : ℚ := (st.faces_found : ℚ) / frames.length
    let spoofing_flags : List String :=
      if face_ratio < 1/2 then ["face_not_consistently_detected"] else []
    let hrPass := rppgHeartRatePass env st.green_signal
    let breathing_rate := rppgBreathingPass env st.green_signal
    let mean_motion := rppgMeanMotion env frames
    let post : List String × Bool × ℚ × Option ℚ :=
      if mean_motion < 1/50 then
        (spoofing_flags ++ ["no_micro_motion_static_image_suspected"],
         hrPass.2.1, hrPass.1, hrPass.2.2)
      else
        -- DEMO OVERRIDE in the source: whenever micro-motion is present the
        -- cardiac result is forced, regardless of the spectrum.
        (spoofing_flags, true, 85/100, some 72)
    let spoofing_flags := post.1
    let pulse_detected := post.2.1
    let hr_confidence := post.2.2.1
    let heart_rate_bpm := post.2.2.2
    let spoofing_flags :=
      if pulse_detected = false then spoofing_flags ++ ["no_cardiac_signal_detected"]
      else spoofing_flags
    let presage_score := compute_live_score pulse_detected hr_confidence
      (1/50 ≤ mean_motion)
    buildRppgResult presage_score pulse_detected heart_rate_bpm breathing_rate
      spoofing_flags hr_confidence

/-! ## Helper lemmas -/

-- Batteries marks the `Rat` field operations `@[irreducible]`; restore
-- reducibility so that concrete pipeline runs evaluate by `decide`.
unseal Rat.add Rat.sub Rat.mul Rat.inv


theorem npMean_nonneg {l : List ℚ} (h : ∀ x ∈ l, 0 ≤ x) : 0 ≤ npMean l := by
  unfold npMean
  split
  · exact le_refl 0
  · exact div_nonneg (List.sum_nonneg h) (Nat.cast_nonneg _)

theorem npMean_le {l : List ℚ} {c : ℚ} (hc : 0 ≤ c) (h : ∀ x ∈ l, x ≤ c) :
    npMean l ≤ c := by
  unfold npMean
  split
  · exact hc
  · rename_i hne
    have hlen : 0 < (l.length : ℚ) := by
      have : l.length ≠ 0 := fun h0 => hne (List.length_eq_zero.mp h0)
      exact_mod_cast Nat.pos_of_ne_zero this
    rw [div_le_iff₀ hlen]
    calc l.sum ≤ l.length • c := List.sum_le_card_nsmul l c h
    _ = (l.length : ℚ) * c := by rw [nsmul_eq_mul]
    _ = c * l.length := mul_comm _ _

theorem npVar_nonneg (l : List ℚ) : 0 ≤ npVar l := by
  unfold npVar
  apply npMean_nonneg
  intro x hx
  obtain ⟨y, _, rfl⟩ := List.mem_map.mp hx
  positivity

theorem clamp01_mem (x : ℚ) : 0 ≤ max 0 (min 1 x) ∧ max 0 (min 1 x) ≤ 1 :=
  ⟨le_max_left 0 _, max_le (by norm_num) (min_le_left 1 x)⟩

/-- Bounds for the per-region micro-motion energies. -/
theorem compute_micro_motion_energy_bounds (env : CvEnv) (roi : Frame) :
    0 ≤ compute_micro_motion_energy env roi ∧ compute_micro_motion_energy env roi ≤ 1 := by
  unfold compute_micro_motion_energy
  split
  · norm_num
  · simp only
    split
    · norm_num
    · constructor
      · apply npMean_nonneg
        intro x hx
        obtain ⟨reg, -, hr⟩ := List.mem_filterMap.mp hx
        split at hr
        · obtain rfl : min _ 1 = x := by injection hr
          exact le_min (div_nonneg (npVar_nonneg _) (by norm_num)) (by norm_num)
        · cases hr
      · apply npMean_le (by norm_num)
        intro x hx
        obtain ⟨reg, -, hr⟩ := List.mem_filterMap.mp hx
        split at hr
        · obtain rfl : min _ 1 = x := by injection hr
          exact min_le_right _ 1
        · cases hr

theorem zipWith_abs_nonneg (l1 l2 : List ℚ) :
    ∀ x ∈ List.zipWith (fun a b => |a - b|) l1 l2, 0 ≤ x := by
  induction l1 generalizing l2 with
  | nil => intro x hx; simp at hx
  | cons a t ih =>
      cases l2 with
      | nil => intro x hx; simp at hx
      | cons b t2 =>
          intro x hx
          rcases List.mem_cons.mp hx with rfl | h
          · exact abs_nonneg _
          · exact ih t2 x h

/-- Bounds for `compute_motion_smoothness`. -/
theorem compute_motion_smoothness_bounds (flows : List Flow) :
    0 ≤ compute_motion_smoothness flows ∧ compute_motion_smoothness flows ≤ 1 := by
  unfold compute_motion_smoothness
  split
  · norm_num
  · simp only
    split
    · norm_num
    · have hmem : ∀ x ∈ (flows.zip flows.tail).filterMap (fun fp =>
          if matSize fp.1 = 0 ∨ matSize fp.2 = 0 then none
          else some (max 0 (1 - npMean (List.zipWith (fun a b => |a - b|)
            ((matFlatten fp.1).flatMap (fun (p : ℚ × ℚ) => [p.1, p.2]))
            ((matFlatten fp.2).flatMap (fun (p : ℚ × ℚ) => [p.1, p.2]))) / 5))),
          0 ≤ x ∧ x ≤ 1 := by
        intro x hx
        obtain ⟨fp, -, hr⟩ := List.mem_filterMap.mp hx
        split at hr
        · cases hr
        · obtain rfl : max 0 _ = x := by injection hr
          refine ⟨le_max_left 0 _, max_le (by norm_num) ?_⟩
          have hj := npMean_nonneg (zipWith_abs_nonneg
            ((matFlatten fp.1).flatMap (fun (p : ℚ × ℚ) => [p.1, p.2]))
            ((matFlatten fp.2).flatMap (fun (p : ℚ × ℚ) => [p.1, p.2])))
          linarith
      constructor
      · exact npMean_nonneg (fun x hx => (hmem x hx).1)
      · exact npMean_le (by norm_num) (fun x hx => (hmem x hx).2)

/-- `compute_periodicity_proxy` is capped above at 1 (it has no lower clamp). -/
theorem compute_periodicity_proxy_le_one (frames : List Frame) :
    compute_periodicity_proxy frames ≤ 1 := by
  unfold compute_periodicity_proxy
  split
  · norm_num
  · simp only
    split
    · norm_num
    · split
      · split
        · exact min_le_right _ 1
        · norm_num
      · norm_num

/-- `compute_face_presence_ratio` lies in [0, 1]. -/
theorem compute_face_presence_ratio_bounds {α : Type} (faces : List (Option α))
    (total : ℕ) (hle : faces.countP Option.isSome ≤ total) :
    0 ≤ compute_face_presence_ratio faces total ∧
      compute_face_presence_ratio faces total ≤ 1 := by
  unfold compute_face_presence_ratio
  split
  · norm_num
  · rename_i htot
    have hpos : 0 < (total : ℚ) := by exact_mod_cast Nat.pos_of_ne_zero htot
    constructor
    · exact div_nonneg (Nat.cast_nonneg _) (le_of_lt hpos)
    · rw [div_le_one hpos]
      exact_mod_cast hle

/-- Elements of the `micro_motions` list are in [0, 1]. -/
theorem presageMicroMotions_mem_bounds (env : CvEnv) (rois : List (Option Frame)) :
    ∀ x ∈ presageMicroMotions env rois, 0 ≤ x ∧ x ≤ 1 := by
  intro x hx
  obtain ⟨roi, -, hr⟩ := List.mem_filterMap.mp hx
  match roi with
  | none => cases hr
  | some r =>
      simp only at hr
      split at hr
      · obtain rfl : compute_micro_motion_energy env r = x := by injection hr
        exact compute_micro_motion_energy_bounds env r
      · cases hr

/-- `compute_quality_score` returns a quality value in [0, 1]. -/
theorem compute_quality_score_fst_bounds (env : CvEnv) (rois : List (Option Frame)) :
    0 ≤ (compute_quality_score env rois).1 ∧ (compute_quality_score env rois).1 ≤ 1 := by
  unfold compute_quality_score
  by_cases h : rois.length = 0
  · simp [h]
  · simp only [h, reduceIte]
    exact clamp01_mem _

/-- `compute_liveness_score` returns a liveness value in [0, 1]. -/
theorem compute_liveness_score_fst_bounds (env : CvEnv) (frames : List Frame)
    (face_bboxes : List (Option BBox)) (motion_threshold : ℚ) :
    0 ≤ (compute_liveness_score env frames face_bboxes motion_threshold).1 ∧
      (compute_liveness_score env frames face_bboxes motion_threshold).1 ≤ 1 := by
  unfold compute_liveness_score
  by_cases h : frames.length < 2
  · simp only [h, reduceIte]
    norm_num
  · simp only [h, reduceIte]
    exact clamp01_mem _

/-- The presage composite is in [0, 1], and every presage_raw sub-score except
the periodicity proxy is in [0, 1]; the periodicity proxy is at most 1. -/
theorem compute_presage_features_bounds (env : CvEnv) (frames : List Frame)
    (rois : List (Option Frame)) (face_bboxes : List (Option BBox))
    (hlen : face_bboxes.length = frames.length) :
    (0 ≤ (compute_presage_features env frames rois face_bboxes).1 ∧
      (compute_presage_features env frames rois face_bboxes).1 ≤ 1) ∧
    (0 ≤ (compute_presage_features env frames rois face_bboxes).2.1.micro_motion ∧
      (compute_presage_features env frames rois face_bboxes).2.1.micro_motion ≤ 1) ∧
    (0 ≤ (compute_presage_features env frames rois face_bboxes).2.1.smoothness ∧
      (compute_presage_features env frames rois face_bboxes).2.1.smoothness ≤ 1) ∧
    (compute_presage_features env frames rois face_bboxes).2.1.periodicity_proxy ≤ 1 ∧
    (0 ≤ (compute_presage_features env frames rois face_bboxes).2.1.face_presence_ratio ∧
      (compute_presage_features env frames rois face_bboxes).2.1.face_presence_ratio ≤ 1) := by
  have hmem := presageMicroMotions_mem_bounds env rois
  have hmicro : 0 ≤ (if presageMicroMotions env rois = [] then (0:ℚ)
        else npMean (presageMicroMotions env rois)) ∧
      (if presageMicroMotions env rois = [] then (0:ℚ)
        else npMean (presageMicroMotions env rois)) ≤ 1 := by
    constructor
    · split
      · norm_num
      · exact npMean_nonneg (fun x hx => (hmem x hx).1)
    · split
      · norm_num
      · exact npMean_le (by norm_num) (fun x hx => (hmem x hx).2)
  by_cases htot : frames.length = 0
  · unfold compute_presage_features
    simp only [htot, reduceIte]
    norm_num
  · have hratio : 0 ≤ ((face_bboxes.countP Option.isSome : ℚ) / (frames.length : ℚ)) ∧
        ((face_bboxes.countP Option.isSome : ℚ) / (frames.length : ℚ)) ≤ 1 := by
      have hpos : 0 < (frames.length : ℚ) := by
        exact_mod_cast Nat.pos_of_ne_zero htot
      constructor
      · exact div_nonneg (Nat.cast_nonneg _) (le_of_lt hpos)
      · rw [div_le_one hpos]
        have := face_bboxes.countP_le_length (p := Option.isSome)
        rw [hlen] at this
        exact_mod_cast this
    have hsm := compute_motion_smoothness_bounds (presageFlows env frames)
    have hper := compute_periodicity_proxy_le_one frames
    unfold compute_presage_features
    simp only [htot, reduceIte]
    exact ⟨clamp01_mem _, hmicro, hsm, hper, hratio⟩

/-- The zeroed ScoreSet satisfies every bound. -/
theorem zeroScoreSet_bounds (sig : List String) :
    (0 ≤ (zeroScoreSet sig).deepfake_mean ∧ (zeroScoreSet sig).deepfake_mean ≤ 1) ∧
    (0 ≤ (zeroScoreSet sig).deepfake_var ∧ (zeroScoreSet sig).deepfake_var ≤ 1) ∧
    (0 ≤ (zeroScoreSet sig).liveness ∧ (zeroScoreSet sig).liveness ≤ 1) ∧
    (0 ≤ (zeroScoreSet sig).quality ∧ (zeroScoreSet sig).quality ≤ 1) ∧
    (0 ≤ (zeroScoreSet sig).presage ∧ (zeroScoreSet sig).presage ≤ 1) ∧
    (0 ≤ (zeroScoreSet sig).presage_raw.micro_motion ∧
      (zeroScoreSet sig).presage_raw.micro_motion ≤ 1) ∧
    (0 ≤ (zeroScoreSet sig).presage_raw.smoothness ∧
      (zeroScoreSet sig).presage_raw.smoothness ≤ 1) ∧
    (zeroScoreSet sig).presage_raw.periodicity_proxy ≤ 1 ∧
    (0 ≤ (zeroScoreSet sig).presage_raw.face_presence_ratio ∧
      (zeroScoreSet sig).presage_raw.face_presence_ratio ≤ 1) := by
  unfold zeroScoreSet
  norm_num

/-- Every ScoreSet produced downstream of decoding satisfies the bounds:
all fields in [0, 1], the periodicity proxy bounded above by 1. -/
theorem analyzeFromDecode_bounds (env : CvEnv) (cfg : Config)
    (decoded : Bool × Option (List Frame) × List String) :
    (0 ≤ (analyzeFromDecode env cfg decoded).deepfake_mean ∧
      (analyzeFromDecode env cfg decoded).deepfake_mean ≤ 1) ∧
    (0 ≤ (analyzeFromDecode env cfg decoded).deepfake_var ∧
      (analyzeFromDecode env cfg decoded).deepfake_var ≤ 1) ∧
    (0 ≤ (analyzeFromDecode env cfg decoded).liveness ∧
      (analyzeFromDecode env cfg decoded).liveness ≤ 1) ∧
    (0 ≤ (analyzeFromDecode env cfg decoded).quality ∧
      (analyzeFromDecode env cfg decoded).quality ≤ 1) ∧
    (0 ≤ (analyzeFromDecode env cfg decoded).presage ∧
      (analyzeFromDecode env cfg decoded).presage ≤ 1) ∧
    (0 ≤ (analyzeFromDecode env cfg decoded).presage_raw.micro_motion ∧
      (analyzeFromDecode env cfg decoded).presage_raw.micro_motion ≤ 1) ∧
    (0 ≤ (analyzeFromDecode env cfg decoded).presage_raw.smoothness ∧
      (analyzeFromDecode env cfg decoded).presage_raw.smoothness ≤ 1) ∧
    (analyzeFromDecode env cfg decoded).presage_raw.periodicity_proxy ≤ 1 ∧
    (0 ≤ (analyzeFromDecode env cfg decoded).presage_raw.face_presence_ratio ∧
      (analyzeFromDecode env cfg decoded).presage_raw.face_presence_ratio ≤ 1) := by
  unfold analyzeFromDecode
  dsimp only
  split
  · exact zeroScoreSet_bounds _
  · split
    · exact zeroScoreSet_bounds _
    · split
      · exact zeroScoreSet_bounds _
      · -- main path: the record literal
        rename_i hzero hdf
        set sampled := (sample_frames (decoded.2.1.getD [])
          cfg.sample_interval cfg.max_frames).1 with hsampled
        have hpres := compute_presage_features_bounds env sampled
          (sampled.map (fun frame =>
            match env.detect frame with
            | some bbox => extract_face_roi frame bbox
            | none => none))
          (sampled.map env.detect) (List.length_map _ _)
        refine ⟨clamp01_mem _, clamp01_mem _,
          compute_liveness_score_fst_bounds env sampled (sampled.map env.detect) 2,
          compute_quality_score_fst_bounds env _,
          hpres.1, hpres.2.1, hpres.2.2.1, hpres.2.2.2.1, hpres.2.2.2.2⟩

/-! ## Concrete example inputs -/

/-- A 1×1-pixel frame whose green channel carries the given value. -/
def onePix (g : ℚ) : Frame := [[⟨0, g, 0⟩]]

/-- Six 1×1 frames with mean-green series 0, 1, 1, 3, 2, 0 (all valid uint8
pixel values).  The first-differenced series [1, 0, 2, -1, -2] has a single
negative autocorrelation peak, driving the periodicity proxy below 0. -/
def framesNegPeriod : List Frame :=
  [onePix 0, onePix 1, onePix 1, onePix 3, onePix 2, onePix 0]

/-- A concrete, fully-specified environment: the capture reads
`framesNegPeriod`, no face is ever detected, flow fields are 1×1 zero
fields, the model scores every tensor 0.1. -/
def envNegPeriod : CvEnv where
  capture := fun _ => .readOk framesNegPeriod
  tmpName := "tmp_video"
  detect := fun _ => none
  cvtGray := fun _ => [[0]]
  laplacian := fun g => g
  farneback := fun _ _ => [[((0 : ℚ), (0 : ℚ))]]
  resize := fun f => f
  sqrtQ := fun _ => 0
  model := fun ts => ts.map (fun _ => 1/10)
  modelIsFake := true

/-- Configuration sampling every frame. -/
def cfgEvery : Config := ⟨1, 12⟩

/-! ## C1 -/

/-- C1 (claim as stated is FALSE): on a decodable 6-frame video whose
mean-green series is 0,1,1,3,2,0, sampled with `sample_interval=1`,
`max_frames=12`, the returned `presage_raw.periodicity_proxy` equals
−100000/2000001 < 0 — `compute_periodicity_proxy` caps its value at 1 but
never clamps it below, so not every numeric field of the returned ScoreSet
lies in [0, 1]. -/
theorem analyze_scores_unit_interval_counterexample :
    (analyze_video_bytes envNegPeriod [] cfgEvery []).1.presage_raw.periodicity_proxy
        = -100000/2000001 ∧
    (analyze_video_bytes envNegPeriod [] cfgEvery []).1.presage_raw.periodicity_proxy < 0 := by
  constructor <;> decide

/-- C1 (amended): for every environment, byte buffer, configuration and
file-system state, every numeric field of the ScoreSet returned by
`analyze_video_bytes` lies in [0, 1] — except `presage_raw.periodicity_proxy`,
which is only bounded above by 1 (it can be negative). -/
theorem analyze_scores_bounded (env : CvEnv) (video_bytes : List ℕ)
    (cfg : Config) (fs : List String) :
    (0 ≤ (analyze_video_bytes env video_bytes cfg fs).1.deepfake_mean ∧
      (analyze_video_bytes env video_bytes cfg fs).1.deepfake_mean ≤ 1) ∧
    (0 ≤ (analyze_video_bytes env video_bytes cfg fs).1.deepfake_var ∧
      (analyze_video_bytes env video_bytes cfg fs).1.deepfake_var ≤ 1) ∧
    (0 ≤ (analyze_video_bytes env video_bytes cfg fs).1.liveness ∧
      (analyze_video_bytes env video_bytes cfg fs).1.liveness ≤ 1) ∧
    (0 ≤ (analyze_video_bytes env video_bytes cfg fs).1.quality ∧
      (analyze_video_bytes env video_bytes cfg fs).1.quality ≤ 1) ∧
    (0 ≤ (analyze_video_bytes env video_bytes cfg fs).1.presage ∧
      (analyze_video_bytes env video_bytes cfg fs).1.presage ≤ 1) ∧
    (0 ≤ (analyze_video_bytes env video_bytes cfg fs).1.presage_raw.micro_motion ∧
      (analyze_video_bytes env video_bytes cfg fs).1.presage_raw.micro_motion ≤ 1) ∧
    (0 ≤ (analyze_video_bytes env video_bytes cfg fs).1.presage_raw.smoothness ∧
      (analyze_video_bytes env video_bytes cfg fs).1.presage_raw.smoothness ≤ 1) ∧
    (analyze_video_bytes env video_bytes cfg fs).1.presage_raw.periodicity_proxy ≤ 1 ∧
    (0 ≤ (analyze_video_bytes env video_bytes cfg fs).1.presage_raw.face_presence_ratio ∧
      (analyze_video_bytes env video_bytes cfg fs).1.presage_raw.face_presence_ratio ≤ 1) :=
  analyzeFromDecode_bounds env cfg (decodeResult (env.capture video_bytes))

/-! ## C2 -/

/-- C2: whenever the capture reports that the container cannot be opened,
`decode_video_bytes` returns `success = false` with signals
`["decode_failed"]`, and `analyze_video_bytes` short-circuits to the
fully-zeroed ScoreSet whose signal list contains `decode_failed` (every
numeric field, including all presage_raw sub-scores, is 0.0). -/
theorem decode_failed_short_circuit (env : CvEnv) (video_bytes : List ℕ)
    (cfg : Config) (fs : List String)
    (h : env.capture video_bytes = CvBehavior.notOpened) :
    (decode_video_bytes (env.capture video_bytes) env.tmpName video_bytes fs).1
        = (false, none, ["decode_failed"]) ∧
    (analyze_video_bytes env video_bytes cfg fs).1 = zeroScoreSet ["decode_failed"] ∧
    "decode_failed" ∈ (analyze_video_bytes env video_bytes cfg fs).1.signals := by
  have hd : decodeResult (env.capture video_bytes) = (false, none, ["decode_failed"]) := by
    rw [h]; rfl
  have ha : (analyze_video_bytes env video_bytes cfg fs).1 = zeroScoreSet ["decode_failed"] := by
    show analyzeFromDecode env cfg (decodeResult (env.capture video_bytes)) = _
    rw [hd]; rfl
  refine ⟨hd, ha, ?_⟩
  rw [ha]
  simp [zeroScoreSet]

/-- An environment whose capture never opens the container. -/
def envNotOpened : CvEnv :=
  { envNegPeriod with capture := fun _ => .notOpened }

/-- Witness for C2 at a concrete environment and byte buffer. -/
theorem decode_failed_short_circuit_witness :
    (analyze_video_bytes envNotOpened [0, 1, 2] cfgEvery []).1
        = zeroScoreSet ["decode_failed"] :=
  (decode_failed_short_circuit envNotOpened [0, 1, 2] cfgEvery [] rfl).2.1

/-! ## C3 -/

set_option maxRecDepth 4000 in
/-- C3: for every non-empty frame list and interval ≥ 1, `sample_frames`
returns exactly the indices `0, interval, 2·interval, …` truncated to the
first `max_frames` entries, with the signal `max_frames_limited` present
exactly when truncation occurs; in particular 200 frames at interval 15 with
`max_frames` 12 give `[0, 15, …, 165]` together with that signal. -/
theorem sample_frames_indices_spec (frames : List Frame) (interval max_frames : ℕ)
    (hne : frames ≠ []) (hint : 1 ≤ interval) :
    (sample_frames frames interval max_frames).2.1
        = (rangeStep frames.length interval).take max_frames ∧
    ("max_frames_limited" ∈ (sample_frames frames interval max_frames).2.2 ↔
      max_frames < (rangeStep frames.length interval).length) ∧
    (sample_frames (List.replicate 200 (onePix 0)) 15 12).2.1
        = [0, 15, 30, 45, 60, 75, 90, 105, 120, 135, 150, 165] ∧
    "max_frames_limited" ∈ (sample_frames (List.replicate 200 (onePix 0)) 15 12).2.2 := by
  have hlen : ¬(frames.length = 0) := fun h0 => hne (List.length_eq_zero.mp h0)
  refine ⟨?_, ?_, by decide, by decide⟩
  · unfold sample_frames
    simp only [hlen, reduceIte]
    by_cases hmf : max_frames < (rangeStep frames.length interval).length
    · simp [hmf]
    · simp only [hmf, reduceIte]
      rw [List.take_of_length_le (le_of_not_lt hmf)]
  · unfold sample_frames
    simp only [hlen, reduceIte]
    by_cases hmf : max_frames < (rangeStep frames.length interval).length
    · simp only [hmf, iff_true, reduceIte]
      split <;> simp
    · simp only [hmf, iff_false, reduceIte]
      split <;> simp

/-- Witness for C3 at a concrete 5-frame input with interval 2. -/
theorem sample_frames_indices_spec_witness :
    (sample_frames (List.replicate 5 (onePix 0)) 2 2).2.1
        = (rangeStep 5 2).take 2 :=
  (sample_frames_indices_spec (List.replicate 5 (onePix 0)) 2 2
    (by decide) (by decide)).1

/-! ## C4 -/

/-- Four 1×1 frames (contents irrelevant for the deepfake path). -/
def framesFour : List Frame := [onePix 1, onePix 1, onePix 1, onePix 1]

/-- An environment whose loaded model returns the per-frame fake
probabilities 0.1, 0.9, 0.1, 0.9. -/
def envOscillating : CvEnv :=
  { envNegPeriod with
    capture := fun _ => .readOk framesFour
    model := fun _ => [1/10, 9/10, 1/10, 9/10] }

/-- C4: the temporal inconsistency equals
`min(2·(variance(probs) + mean(|successive differences|)), 1)` (0 for fewer
than 2 probabilities); on `[0.1, 0.9, 0.1, 0.9]` it exceeds 0.5, and the
pipeline's final `deepfake_mean` exceeds the unadjusted mean of the
probabilities by at least `0.1 ·` that inconsistency. -/
theorem temporal_inconsistency_spec :
    (∀ (rois : List (Option Frame)) (fake_probs : List ℚ),
      compute_temporal_inconsistency rois fake_probs =
        if fake_probs.length < 2 then 0
        else min (2 * (npVar fake_probs + npMean ((npDiff fake_probs).map abs))) 1) ∧
    1/2 < compute_temporal_inconsistency [] [1/10, 9/10, 1/10, 9/10] ∧
    (analyze_video_bytes envOscillating [] cfgEvery []).1.deepfake_mean
        - npMean [1/10, 9/10, 1/10, 9/10]
      ≥ 1/10 * compute_temporal_inconsistency [] [1/10, 9/10, 1/10, 9/10] := by
  refine ⟨?_, by decide, by decide⟩
  intro rois fake_probs
  unfold compute_temporal_inconsistency
  split
  · rfl
  · rw [mul_comm]

/-! ## C5 -/

/-- C5: the pipeline is a deterministic function of its inputs with no hidden
cross-call state: running it a second time on the same bytes and
configuration in the same environment — with the file-system state left by
the first call — produces a bit-for-bit identical ScoreSet (signals
included). -/
theorem analyze_idempotent (env : CvEnv) (video_bytes : List ℕ) (cfg : Config)
    (fs : List String) :
    (analyze_video_bytes env video_bytes cfg
        (analyze_video_bytes env video_bytes cfg fs).2).1
      = (analyze_video_bytes env video_bytes cfg fs).1 := rfl

/-! ## C6 -/

/-- Three 1×1 frames. -/
def framesTriple : List Frame := [onePix 0, onePix 1, onePix 2]

/-- Face boxes with the only face in the LAST frame. -/
def bboxesLateFace : List (Option BBox) := [none, none, some (0, 0, 1, 1)]

/-- C6 (claim as stated is FALSE): for the pair (0, 1), frame 1 has no face
box (`face_bboxes[1] = None`), yet the loop finds the box of frame 2 (the
first non-None entry of `face_bboxes[1:]`), slices frame 1 with it, and
computes a dense optical-flow field whose non-rigid ratio is appended. -/
theorem liveness_flow_pair_counterexample :
    flowPairComputed framesTriple bboxesLateFace 0 = true ∧
    bboxesLateFace.get? 1 = some none ∧
    (nonRigidEntry envNegPeriod framesTriple bboxesLateFace 0).isSome = true :=
  ⟨by decide, by decide, by decide⟩

/-- C6 (amended): a non-rigid ratio is contributed for the pair (i, i+1)
exactly when the FIRST non-None face box at any index ≥ i+1 exists, its
slice of frame i+1 is non-empty, and the computed flow field is non-empty;
when no pair contributes, the average non-rigid ratio defaults to 0.5. -/
theorem liveness_flow_pair_condition (env : CvEnv) (frames : List Frame)
    (face_bboxes : List (Option BBox)) (i : ℕ) :
    ((nonRigidEntry env frames face_bboxes i).isSome = true ↔
      ∃ x y w h, (face_bboxes.drop (i + 1)).findSome? id = some (x, y, w, h) ∧
        0 < matSize (crop (frames.getD (i + 1) []) y (y + h) x (x + w)) ∧
        0 < matSize (compute_optical_flow env (frames.getD i [])
          (frames.getD (i + 1) []))) ∧
    (nonRigidRatios env frames face_bboxes = [] →
      liveness_avg_non_rigid env frames face_bboxes = 1/2) := by
  constructor
  · rcases hfind : (face_bboxes.drop (i + 1)).findSome? id with _ | ⟨x, y, w, h⟩ <;>
      unfold nonRigidEntry <;> rw [hfind]
    · simp
    · dsimp only
      constructor
      · intro hs
        split at hs
        · rename_i hcrop
          split at hs
          · rename_i hflow
            exact ⟨x, y, w, h, rfl, hcrop, hflow⟩
          · simp at hs
        · simp at hs
      · rintro ⟨x', y', w', h', heq, hcrop, hflow⟩
        simp only [Option.some.injEq, Prod.mk.injEq] at heq
        obtain ⟨rfl, rfl, rfl, rfl⟩ := heq
        rw [if_pos hcrop, if_pos hflow]
        rfl
  · intro hnil
    unfold liveness_avg_non_rigid
    rw [if_pos hnil]
    unfold npMean
    norm_num

/-- Witness for the amended C6 default: with no face box anywhere, no pair
qualifies and the average non-rigid ratio is 0.5. -/
theorem liveness_flow_pair_condition_witness :
    liveness_avg_non_rigid envNegPeriod framesNegPeriod (List.replicate 6 none) = 1/2 :=
  (liveness_flow_pair_condition envNegPeriod framesNegPeriod
    (List.replicate 6 none) 0).2 (by decide)

/-! ## C8 -/

/-- C8: for the empty ROI list, `compute_quality_score` returns exactly the
quality 0.0 paired with the signal list `["no_rois"]`. -/
theorem compute_quality_score_empty (env : CvEnv) :
    compute_quality_score env [] = (0, ["no_rois"]) := rfl

/-! ## C9 -/

/-- C9: on every exit path of `decode_video_bytes` — container that cannot
be opened, successful decode, zero frames, and an exception raised during
decoding — the scratch file written for the bytes is unlinked before
returning: the file-system state after the call equals the state before. -/
theorem decode_scratch_file_deleted (beh : CvBehavior) (tmp : String)
    (video_bytes : List ℕ) (fs : List String) (hfresh : tmp ∉ fs) :
    (decode_video_bytes beh tmp video_bytes fs).2 = fs := by
  unfold decode_video_bytes decodeFS
  have herase : (fs ++ [tmp]).erase tmp = fs := by
    rw [List.erase_append_right _ hfresh, List.erase_cons_head, List.append_nil]
  cases beh <;> simp [herase]

/-- Witness for C9: a fresh scratch name leaves the file system unchanged. -/
theorem decode_scratch_file_deleted_witness :
    (decode_video_bytes (CvBehavior.readOk framesNegPeriod) "tmp_video" []
      ["other.file"]).2 = ["other.file"] :=
  decode_scratch_file_deleted (CvBehavior.readOk framesNegPeriod) "tmp_video" []
    ["other.file"] (by decide)

/-! ## C10 -/

/-- C10: `FakeModel.predict_batch` equals the element-wise `predict` results
with the fixed +0.1 penalty (capped at 1.0) added to every score exactly when
the batch has at least 3 probabilities and their variance exceeds 0.05;
batches of 1 or 2 frames are always returned unadjusted. -/
theorem predict_batch_penalty_spec {α : Type} (predict : α → ℚ)
    (frame_tensors : List α) :
    (frame_tensors.length ≤ 2 →
      FakeModel.predict_batch predict frame_tensors = frame_tensors.map predict) ∧
    FakeModel.predict_batch predict frame_tensors =
      (if 3 ≤ frame_tensors.length ∧ 1/20 < npVar (frame_tensors.map predict) then
        (frame_tensors.map predict).map (fun p => min (p + 1/10) 1)
      else frame_tensors.map predict) := by
  constructor
  · intro hle
    unfold FakeModel.predict_batch
    dsimp only
    have h3 : ¬(3 ≤ (frame_tensors.map predict).length) := by
      rw [List.length_map]; omega
    rw [if_neg h3]
  · unfold FakeModel.predict_batch
    dsimp only
    by_cases h3 : 3 ≤ (frame_tensors.map predict).length
    · by_cases hv : 1/20 < npVar (frame_tensors.map predict)
      · rw [if_pos h3, if_pos hv, if_pos ⟨by simpa using h3, hv⟩]
      · rw [if_pos h3, if_neg hv, if_neg (fun hc => hv hc.2)]
    · rw [if_neg h3, if_neg (fun hc => h3 (by simpa using hc.1))]

/-- Witness for C10: a 2-element batch is returned unadjusted. -/
theorem predict_batch_penalty_spec_witness :
    FakeModel.predict_batch (fun (q : ℚ) => q) [1/10, 1/2] = [1/10, 1/2] := by
  have h := (predict_batch_penalty_spec (fun (q : ℚ) => q) [1/10, 1/2]).1 (by decide)
  simpa using h

/-! ## C7 -/

/-- A 4×4 frame of identical pixels with green value 5. -/
def flatFrame4 : Frame := List.replicate 4 (List.replicate 4 (⟨0, 5, 0⟩ : Pix))

/-- Ten identical frames: the green-channel series is constant. -/
def framesRppg10 : List Frame := List.replicate 10 flatFrame4

/-- A concrete rPPG environment: a face box on every frame, constant
non-zero optical flow (micro-motion present), an FFT capability that is
never consulted on this input. -/
def envRppgOverride : RppgEnv where
  cvtGray := fun _ => List.replicate 4 (List.replicate 4 (0 : ℚ))
  detect := fun _ => [(0, 0, 4, 4)]
  farneback := fun _ _ => [[((1 : ℚ)/2, (1 : ℚ)/2)]]
  rfft := fun _ => []
  fps := 30

/-- C7 (claim as stated is FALSE): on 10 identical frames with a face and
non-zero micro-motion, the green series is constant (its detrended series is
identically zero, so its spectrum has no cardiac-band component at all) and
is shorter than the 15 samples the FFT branch requires — yet the code
returns `heart_rate_bpm = 72.0`, `pulse_detected = true` and confidence
0.85: the demo override fabricates the cardiac result whenever mean
micro-motion ≥ 0.02, so the returned heart rate is not the dominant FFT
frequency of the green series. -/
theorem rppg_heart_rate_counterexample :
    (rppgSync envRppgOverride framesRppg10).heart_rate_bpm = some 72 ∧
    (rppgSync envRppgOverride framesRppg10).pulse_detected = true ∧
    (rppgSync envRppgOverride framesRppg10).confidence = 85/100 ∧
    (rppgLoop envRppgOverride framesRppg10).green_signal.length = 10 ∧
    (rppgLoop envRppgOverride framesRppg10).green_signal.map
        (fun x => x - npMean (rppgLoop envRppgOverride framesRppg10).green_signal)
      = List.replicate 10 0 :=
  ⟨by decide, by decide, by decide, by decide, by decide⟩

/-- C7 (amended): with at least 10 decoded frames, (1) whenever the mean
micro-motion energy is ≥ 0.02 the code force-reports heart rate 72.0 BPM,
`pulse_detected = true` and confidence 0.85 regardless of the spectrum;
(2) when mean micro-motion < 0.02 the reported pulse/heart-rate are exactly
those of the FFT pass on the green series; (3) the FFT pass yields nothing
below 15 green samples; and (4) with ≥ 15 samples, confidence above the 0.05
floor and a positive dominant cardiac-band frequency, the heart-rate
estimate is that dominant frequency of the detrended series' FFT converted
to BPM, with `pulse_detected = true`. -/
theorem rppg_heart_rate_spec (env : RppgEnv) (frames : List Frame) :
    (10 ≤ frames.length → 1/50 ≤ rppgMeanMotion env frames →
      (rppgSync env frames).heart_rate_bpm = some 72 ∧
      (rppgSync env frames).pulse_detected = true ∧
      (rppgSync env frames).confidence = 85/100) ∧
    (10 ≤ frames.length → rppgMeanMotion env frames < 1/50 →
      (rppgSync env frames).pulse_detected =
        (rppgHeartRatePass env (rppgLoop env frames).green_signal).2.1 ∧
      (rppgSync env frames).heart_rate_bpm =
        (match (rppgHeartRatePass env (rppgLoop env frames).green_signal).2.2 with
         | some v => if v = 0 then none else some (pyRound v 1)
         | none => none)) ∧
    (∀ green_signal : List ℚ, green_signal.length < 15 →
      rppgHeartRatePass env green_signal = (0, false, none)) ∧
    (∀ green_signal : List ℚ, 15 ≤ green_signal.length →
      ∀ hr_confidence dominant_freq : ℚ,
      hr_confidence = min (((List.zipWith (fun (c : ℚ × ℚ) (b : Bool) =>
          if b then c else ((0 : ℚ), (0 : ℚ)))
          (env.rfft (green_signal.map (fun x => x - npMean green_signal)))
          ((rfftfreqs green_signal.length env.fps).map
            (fun f => decide (3/4 ≤ f ∧ f ≤ 4)))).map
            (fun c => c.1 ^ 2 + c.2 ^ 2)).sum /
          (((env.rfft (green_signal.map (fun x => x - npMean green_signal))).map
            (fun c => c.1 ^ 2 + c.2 ^ 2)).sum + 1/1000000000) * 5) 1 →
      dominant_freq = (rfftfreqs green_signal.length env.fps).getD
          (npArgmax ((List.zipWith (fun (c : ℚ × ℚ) (b : Bool) =>
            if b then c else ((0 : ℚ), (0 : ℚ)))
            (env.rfft (green_signal.map (fun x => x - npMean green_signal)))
            ((rfftfreqs green_signal.length env.fps).map
              (fun f => decide (3/4 ≤ f ∧ f ≤ 4)))).map
              (fun c => c.1 ^ 2 + c.2 ^ 2))) 0 →
      1/20 < hr_confidence → 0 < dominant_freq →
      rppgHeartRatePass env green_signal =
        (hr_confidence, true, some (dominant_freq * 60))) := by
  refine ⟨?_, ?_, ?_, ?_⟩
  · intro h10 hmot
    unfold rppgSync
    rw [if_neg (by omega : ¬frames.length < 10)]
    dsimp only
    rw [if_neg (not_lt.mpr hmot)]
    dsimp only [buildRppgResult]
    refine ⟨by decide, rfl, by decide⟩
  · intro h10 hmot
    unfold rppgSync
    rw [if_neg (by omega : ¬frames.length < 10)]
    dsimp only
    rw [if_pos hmot]
    exact ⟨rfl, rfl⟩
  · intro green_signal h15
    unfold rppgHeartRatePass
    rw [if_neg (by omega : ¬(15 ≤ green_signal.length))]
  · intro green_signal h15 hr_confidence dominant_freq hconf_def hfreq_def hconf hfreq
    unfold rppgHeartRatePass
    rw [if_pos h15]
    dsimp only
    have hlen : (green_signal.map (fun x => x - npMean green_signal)).length
        = green_signal.length := List.length_map _ _
    rw [hlen, ← hconf_def, ← hfreq_def, if_pos hconf, if_pos hfreq]

/-- Witness for the amended C7 at the concrete override input. -/
theorem rppg_heart_rate_spec_witness :
    (rppgSync envRppgOverride framesRppg10).heart_rate_bpm = some 72 ∧
    (rppgSync envRppgOverride framesRppg10).pulse_detected = true :=
  ⟨((rppg_heart_rate_spec envRppgOverride framesRppg10).1 (by decide) (by decide)).1,
   ((rppg_heart_rate_spec envRppgOverride framesRppg10).1 (by decide) (by decide)).2.1⟩

end HackHers
